import Mathlib

/-!
Verification development for the BLOD data-catalog web application.

The embedding below follows the two source files that carry the
program logic:

* `WebApp/frontend/blod/src/components/Graph.js` — the static graph
  renderer (`StaticGraph` component): node/link filtering, incoming-link
  counting, node sizing, force-layout driving and clamping, hover
  highlighting, click navigation, and label abbreviation.
* `WebApp/backend/src/db.js` — the memoized MongoDB connection bootstrap.

Conventions of the embedding:

* JavaScript numbers that stay in ordinary arithmetic ranges are
  modelled as `ℚ` (sizes, coordinates) or `ℕ` (counts).
* In the source a `link.source` / `link.target` can be either a node
  object or a plain id string; every use site reduces it to the id via
  the ternary `link.source.id` versus `link.source` dispatch on
  `typeof`, so
  links are modelled as pairs of id strings.
* DOM side effects (drawing, navigation, logging) are modelled as data:
  the rendered diagram is a structure of what is drawn, a click produces
  a `ClickOutcome`, and highlight classes are booleans attached to the
  rendered elements.
-/

namespace BLOD

/-- A node of the dataset, with the fields the renderer reads: `id`,
optional `title`, `category`, optional `url`. -/
structure Node where
  id : String
  title : Option String
  category : String
  url : Option String
deriving Repr, DecidableEq

/-- A link of the dataset.  `source`/`target` hold the endpoint node ids
(the renderer always reduces an object endpoint to its `.id`). -/
structure Link where
  source : String
  target : String
deriving Repr, DecidableEq

/-- A dataset: the `data` prop of the `StaticGraph` component. -/
structure Dataset where
  nodes : List Node
  links : List Link
deriving Repr, DecidableEq

/-- All endpoint ids of a list of links, source and target alike. -/
def endpointIds (links : List Link) : List String :=
  links.foldr (fun l acc => l.source :: l.target :: acc) []

/-- Graph.js lines 63–68: `linkedNodeIds` is the set of every id that
appears as source or target of some link.  Modelled as the list of all
endpoint ids (only membership is ever consulted). -/
def linkedNodeIds (d : Dataset) : List String :=
  endpointIds d.links

/-- Graph.js line 71: `connectedNodes = data.nodes.filter(node =>
linkedNodeIds.has(node.id))`. -/
def connectedNodes (d : Dataset) : List Node :=
  d.nodes.filter (fun n => (linkedNodeIds d).contains n.id)

/-- Graph.js lines 74–78: `validLinks = data.links.filter(link =>
linkedNodeIds.has(sourceId) && linkedNodeIds.has(targetId))`. -/
def validLinks (d : Dataset) : List Link :=
  d.links.filter (fun l =>
    (linkedNodeIds d).contains l.source && (linkedNodeIds d).contains l.target)

/-- Graph.js lines 86–89: the incoming-link count of an id is the number
of valid links whose target is that id (`incomingLinkCounts`, with the
`|| 0` default for ids never initialised). -/
def incomingCount (links : List Link) (id : String) : ℕ :=
  (links.filter (fun l => l.target == id)).length

/-- The keys of the `incomingLinkCounts` dictionary: every connected
node id (initialised to 0, lines 82–84) and every valid link target id
(lines 86–89).  Only the multiset of values matters for the maximum
below. -/
def countKeys (d : Dataset) : List String :=
  (connectedNodes d).map Node.id ++ (validLinks d).map Link.target

/-- Graph.js line 94: `maxIncomingLinks = Math.max(1,
...Object.values(incomingLinkCounts))`. -/
def maxIncomingLinks (d : Dataset) : ℕ :=
  Nat.max 1 (((countKeys d).map (incomingCount (validLinks d))).foldr Nat.max 0)

/-- Graph.js line 92. -/
def minNodeSize : ℚ := 20

/-- Graph.js line 93. -/
def maxNodeSize : ℚ := 40

/-- Clamp `x` into `[lo, hi]`, as the d3 `.clamp(true)` option does to
the output of a scale (and as the position clamp at lines 113–116 does,
written there as `Math.min(Math.max(x, lo), hi)`). -/
def clampQ (lo hi x : ℚ) : ℚ := min (max x lo) hi

/-- Graph.js lines 96–99: `nodeSizeScale = d3.scaleLinear()
.domain([0, maxIncomingLinks]).range([minNodeSize, maxNodeSize])
.clamp(true)` — linear interpolation from the domain onto the range with
the output clamped into the range. -/
def nodeSizeScale (m : ℕ) (c : ℕ) : ℚ :=
  clampQ minNodeSize maxNodeSize
    (minNodeSize + (maxNodeSize - minNodeSize) * (c : ℚ) / (m : ℚ))

/-- Graph.js line 146: the rendered radius of the node with a given id,
`nodeSizeScale(incomingLinkCounts[d.id])`. -/
def nodeRadius (d : Dataset) (id : String) : ℚ :=
  nodeSizeScale (maxIncomingLinks d) (incomingCount (validLinks d) id)

/-- Deduplicate a list keeping the first occurrence of each element, as
the JavaScript `Array.from(new Set(xs))` does (Graph.js line 24): walk
the list, emitting each element not seen before. -/
def dedupKeepFirst (seen : List String) : List String → List String
  | [] => []
  | x :: xs =>
      if seen.contains x then dedupKeepFirst seen xs
      else x :: dedupKeepFirst (x :: seen) xs

/-- What one run of `renderStaticGraph` draws: the legend swatches (one
per category present, in first-occurrence order, lines 24 and 43–61),
the rendered node groups (the connected nodes, lines 135–142), the
rendered link lines (the valid links, lines 119–132), and each rendered
node circle radius (lines 144–154). -/
structure Diagram where
  legend : List String
  drawnNodes : List Node
  drawnLinks : List Link
  radii : List (String × ℚ)
deriving Repr, DecidableEq

/-- Graph.js `renderStaticGraph` (lines 19–209), restricted to what it
draws (positions are handled separately, see `layoutPositions`). -/
def renderStaticGraph (d : Dataset) : Diagram :=
  { legend := dedupKeepFirst [] (d.nodes.map Node.category)
    drawnNodes := connectedNodes d
    drawnLinks := validLinks d
    radii := (connectedNodes d).map (fun n => (n.id, nodeRadius d n.id)) }

/-- The render-relevant state of the component: the `graphRendered`
flag (Graph.js line 9) and the current on-screen diagram (`none` before
the first render). -/
structure RenderState where
  rendered : Bool
  diagram : Option Diagram
deriving Repr, DecidableEq

/-- The state before the component ever rendered. -/
def initialRenderState : RenderState := { rendered := false, diagram := none }

/-- Graph.js lines 11–17, one run of the `useEffect` body:
`if (data.nodes.length === 0 || data.links.length === 0 || graphRendered)
return;` then `renderStaticGraph(); setGraphRendered(true);`. -/
def effectStep (data : Dataset) (st : RenderState) : RenderState :=
  if data.nodes.length = 0 ∨ data.links.length = 0 ∨ st.rendered = true then st
  else { rendered := true, diagram := some (renderStaticGraph data) }

/-- The observable outcome of the circle click handler: either exactly
one `window.open(url, "_blank", ...)` navigation, or a `console.warn`
and no navigation. -/
inductive ClickOutcome where
  | navigate (url : String)
  | warnInvalidUrl
deriving Repr, DecidableEq

/-- The JavaScript `s.startsWith(p)`: the first `p.length` characters
of `s` equal `p`. -/
def jsStartsWith (s p : String) : Bool := s.take p.length == p

/-- Graph.js lines 158–165: the guard
`d.url && d.url !== "#" && d.url.startsWith("http")` selects
`window.open(d.url, "_blank", ...)`, and every other case falls to
`console.warn(...)`.  An absent `url` and the empty string are both
falsy in the guard. -/
def clickNode (n : Node) : ClickOutcome :=
  match n.url with
  | none => .warnInvalidUrl
  | some u =>
      if u ≠ "" ∧ u ≠ "#" ∧ jsStartsWith u "http" then .navigate u
      else .warnInvalidUrl

/-- Graph.js lines 212–223: `abbreviateText(text, nodeRadius)`.
`maxLength = Math.floor(nodeRadius * 0.22)`; text longer than that is
cut to its first `maxLength` characters with `"..."` appended. -/
def abbreviateText (text : String) (r : ℚ) : String :=
  if text = "" then ""
  else if (text.length : ℤ) > ⌊r * (22 / 100 : ℚ)⌋ then
    (text.take (⌊r * (22 / 100 : ℚ)⌋).toNat) ++ "..."
  else text

/-- Whether a link is incident to the node id `a`, the predicate of
`svg.selectAll(".link").classed("highlighted", ...)` (Graph.js
lines 182–186). -/
def incident (a : String) (l : Link) : Bool :=
  l.source == a || l.target == a

/-- Whether `b` is directly connected to `a` through some valid link, in
either direction: the `isConnected` check of the mouseover handler
(Graph.js lines 191–196). -/
def adjacent (valid : List Link) (a b : String) : Bool :=
  valid.any (fun l =>
    (l.source == a && l.target == b) || (l.target == a && l.source == b))

/-- The highlight state of the rendered elements: each drawn link line
and each drawn node circle (keyed by node id) with its current
`highlighted` class flag. -/
structure HighlightState where
  linkFlags : List (Link × Bool)
  circleFlags : List (String × Bool)
deriving Repr, DecidableEq

/-- The highlight state right after `renderStaticGraph d`: every link
line and node circle is drawn without the `highlighted` class. -/
def initHighlight (d : Dataset) : HighlightState :=
  { linkFlags := (validLinks d).map (fun l => (l, false))
    circleFlags := ((connectedNodes d).map Node.id).map (fun i => (i, false)) }

/-- Graph.js lines 179–202, the mouseover handler on the node group of
id `a`: every link line has its class set to exactly `incident a`; the
hovered circle has its class set to true; every node circle connected to
`a` has its class set to true (other circles are left as they were). -/
def mouseoverStep (valid : List Link) (a : String) (st : HighlightState) :
    HighlightState :=
  { linkFlags := st.linkFlags.map (fun p => (p.1, incident a p.1))
    circleFlags := st.circleFlags.map
      (fun p => (p.1, p.2 || p.1 == a || adjacent valid a p.1)) }

/-- Graph.js lines 203–209, the mouseout handler: every link line and
every node circle loses the `highlighted` class. -/
def mouseoutStep (st : HighlightState) : HighlightState :=
  { linkFlags := st.linkFlags.map (fun p => (p.1, false))
    circleFlags := st.circleFlags.map (fun p => (p.1, false)) }

/-- Graph.js line 110: `for (let i = 0; i < 300; ++i) simulation.tick();`
— the force simulation, whatever its tick does, is advanced exactly 300
discrete steps.  `tick` abstracts the d3 simulation step over the list
of node positions. -/
def runSim (tick : List (ℚ × ℚ) → List (ℚ × ℚ)) (ps : List (ℚ × ℚ)) :
    List (ℚ × ℚ) :=
  tick^[300] ps

/-- Graph.js lines 113–116: after the loop the position of each
connected node is clamped,
`node.x = Math.min(Math.max(node.x, 30), width - 30)`
and likewise for `y` with the height. -/
def clampNodePos (w h : ℚ) (p : ℚ × ℚ) : ℚ × ℚ :=
  (clampQ 30 (w - 30) p.1, clampQ 30 (h - 30) p.2)

/-- The final layout: run the simulation for its fixed step budget, then
clamp every node position into the viewport margins. -/
def layoutPositions (w h : ℚ) (tick : List (ℚ × ℚ) → List (ℚ × ℚ))
    (ps : List (ℚ × ℚ)) : List (ℚ × ℚ) :=
  (runSim tick ps).map (clampNodePos w h)

/-- The outcome of one `connectToMongoDB` attempt from `db.js`: either a
database handle or a connection error. -/
inductive ConnOutcome (E D : Type) where
  | ok (db : D)
  | err (e : E)
deriving Repr, DecidableEq

/-- db.js lines 8–21: `connectToMongoDB`.  The module-level `dbInstance`
memo is threaded explicitly; `attempt` is the outcome the MongoDB driver
would produce if `client.connect()` were called now.  When a handle is
memoized the driver is not consulted at all; on a fresh failure the
error is rethrown and the memo stays empty. -/
def connectToMongoDB {E D : Type} (attempt : ConnOutcome E D)
    (dbInstance : Option D) : ConnOutcome E D × Option D :=
  match dbInstance with
  | some db => (.ok db, some db)
  | none =>
      match attempt with
      | .ok db => (.ok db, some db)
      | .err e => (.err e, none)

/-- Sample node, from the worked example in section 8 of the spec. -/
def nodeA : Node := ⟨"A", none, "Clinical & Patient Data", none⟩

/-- Sample node, from the worked example in section 8 of the spec. -/
def nodeB : Node := ⟨"B", none, "Omics & Molecular Data", none⟩

/-- Sample node, from the worked example in section 8 of the spec. -/
def nodeC : Node := ⟨"C", none, "Clinical & Patient Data", none⟩

/-- The worked example dataset of section 8 of the spec: three nodes,
one link A→B, node C isolated. -/
def exampleDataset : Dataset := ⟨[nodeA, nodeB, nodeC], [⟨"A", "B"⟩]⟩

/-- A second, disjoint dataset used to exercise dataset replacement. -/
def otherDataset : Dataset :=
  ⟨[⟨"C", none, "Clinical & Patient Data", none⟩,
    ⟨"D", none, "Omics & Molecular Data", none⟩], [⟨"C", "D"⟩]⟩

/-- A dataset with a dangling link: node Z does not exist, yet the link
A→Z mentions it. -/
def danglingDataset : Dataset := ⟨[nodeA], [⟨"A", "Z"⟩]⟩

lemma endpointIds_cons (l : Link) (ls : List Link) :
    endpointIds (l :: ls) = l.source :: l.target :: endpointIds ls := rfl

lemma mem_endpointIds {links : List Link} {x : String} :
    x ∈ endpointIds links ↔ ∃ l ∈ links, x = l.source ∨ x = l.target := by
  induction links with
  | nil => simp [endpointIds]
  | cons l ls ih =>
      rw [endpointIds_cons]
      simp only [List.mem_cons, ih]
      constructor
      · rintro (rfl | rfl | ⟨l', hl', h⟩)
        · exact ⟨l, Or.inl rfl, Or.inl rfl⟩
        · exact ⟨l, Or.inl rfl, Or.inr rfl⟩
        · exact ⟨l', Or.inr hl', h⟩
      · rintro ⟨l', (rfl | hl'), h⟩
        · rcases h with rfl | rfl
          · exact Or.inl rfl
          · exact Or.inr (Or.inl rfl)
        · exact Or.inr (Or.inr ⟨l', hl', h⟩)

/-- The `validLinks` filter of Graph.js is vacuous: every endpoint id of
every link is in `linkedNodeIds` by construction, so every link passes
the filter. -/
lemma validLinks_eq_links (d : Dataset) : validLinks d = d.links := by
  apply List.filter_eq_self.mpr
  intro l hl
  have hs : (linkedNodeIds d).contains l.source = true :=
    List.elem_eq_true_of_mem (mem_endpointIds.mpr ⟨l, hl, Or.inl rfl⟩)
  have ht : (linkedNodeIds d).contains l.target = true :=
    List.elem_eq_true_of_mem (mem_endpointIds.mpr ⟨l, hl, Or.inr rfl⟩)
  rw [hs, ht]
  rfl

/-- Claim C1: the rendered node set does exclude isolated nodes, but the
rendered link set does NOT exclude links referencing absent nodes: on
the dangling dataset the link A→Z survives `validLinks` even though Z is
absent from the rendered node set (the filter tests membership in
`linkedNodeIds`, which contains every link endpoint by construction, so
it never drops anything — contradicting the comment above it, "Process
links to ensure they reference only connected nodes"). -/
theorem c1_dangling_link_retained :
    validLinks danglingDataset = danglingDataset.links
    ∧ "Z" ∈ (validLinks danglingDataset).map Link.target
    ∧ "Z" ∉ (connectedNodes danglingDataset).map Node.id
    ∧ (connectedNodes danglingDataset).map Node.id = ["A"] := by
  refine ⟨validLinks_eq_links _, ?_, ?_, ?_⟩ <;> decide

/-- Claim C2 (counterexample): after a first render of `exampleDataset`,
running the effect with the distinct `otherDataset` performs no render
at all — the state is unchanged and the diagram still shows the nodes of
the first dataset, not those of the second. -/
theorem c2_second_dataset_not_rendered :
    effectStep otherDataset (effectStep exampleDataset initialRenderState)
      = effectStep exampleDataset initialRenderState
    ∧ (effectStep otherDataset
        (effectStep exampleDataset initialRenderState)).diagram.map Diagram.drawnNodes
      = some (connectedNodes exampleDataset)
    ∧ connectedNodes exampleDataset ≠ connectedNodes otherDataset :=
  ⟨rfl, rfl, by decide⟩

/-- Claim C2 (amended): re-running the effect with the same dataset
before any change performs no second render and leaves the diagram
unchanged; but once the guard flag is set, a change to a distinct
dataset also performs no render — the guard is a one-shot latch per
component lifetime, never reset on dataset change.  The first render of
a nonempty dataset does happen. -/
theorem c2_render_guard :
    (∀ (d : Dataset) (st : RenderState),
        effectStep d (effectStep d st) = effectStep d st)
    ∧ (∀ (d : Dataset) (st : RenderState), st.rendered = true →
        effectStep d st = st)
    ∧ (∀ d : Dataset, d.nodes ≠ [] → d.links ≠ [] →
        effectStep d initialRenderState
          = { rendered := true, diagram := some (renderStaticGraph d) }) := by
  refine ⟨?_, ?_, ?_⟩
  · intro d st
    by_cases hc : d.nodes.length = 0 ∨ d.links.length = 0 ∨ st.rendered = true
    · have hinner : effectStep d st = st := by
        unfold effectStep; rw [if_pos hc]
      rw [hinner]
      exact hinner
    · have hinner : effectStep d st
          = { rendered := true, diagram := some (renderStaticGraph d) } := by
        unfold effectStep; rw [if_neg hc]
      rw [hinner]
      unfold effectStep
      rw [if_pos (Or.inr (Or.inr rfl))]
  · intro d st h
    unfold effectStep
    rw [if_pos (Or.inr (Or.inr h))]
  · intro d hn hl
    unfold effectStep
    rw [if_neg]
    simp [initialRenderState, List.length_eq_zero, hn, hl]

/-- Witness for `c2_render_guard` at concrete inputs. -/
theorem c2_render_guard_witness :
    effectStep otherDataset { rendered := true, diagram := none }
      = { rendered := true, diagram := none }
    ∧ effectStep exampleDataset initialRenderState
      = { rendered := true, diagram := some (renderStaticGraph exampleDataset) } :=
  ⟨c2_render_guard.2.1 otherDataset { rendered := true, diagram := none } rfl,
   c2_render_guard.2.2 exampleDataset (by decide) (by decide)⟩

/-- Claim C9: a dataset with an empty node list or an empty link list
makes the effect a no-op — nothing is drawn and the guard flag is not
set — so a later nonempty dataset still performs the first render. -/
theorem c9_empty_dataset_noop (d d2 : Dataset) (st : RenderState)
    (h : d.nodes = [] ∨ d.links = []) :
    effectStep d st = st
    ∧ (st = initialRenderState → d2.nodes ≠ [] → d2.links ≠ [] →
        effectStep d2 (effectStep d st)
          = { rendered := true, diagram := some (renderStaticGraph d2) }) := by
  have hc : d.nodes.length = 0 ∨ d.links.length = 0 ∨ st.rendered = true := by
    rcases h with h | h
    · exact Or.inl (by simp [h])
    · exact Or.inr (Or.inl (by simp [h]))
  have h1 : effectStep d st = st := by
    unfold effectStep; rw [if_pos hc]
  refine ⟨h1, ?_⟩
  rintro rfl hn hl
  rw [h1]
  unfold effectStep
  rw [if_neg]
  simp [initialRenderState, List.length_eq_zero, hn, hl]

/-- Witness for `c9_empty_dataset_noop`: an empty dataset leaves the
initial state untouched and the example dataset then renders. -/
theorem c9_empty_dataset_noop_witness :
    effectStep ⟨[], []⟩ initialRenderState = initialRenderState
    ∧ effectStep exampleDataset (effectStep ⟨[], []⟩ initialRenderState)
      = { rendered := true, diagram := some (renderStaticGraph exampleDataset) } :=
  have h := c9_empty_dataset_noop ⟨[], []⟩ exampleDataset initialRenderState (Or.inl rfl)
  ⟨h.1, h.2 rfl (by decide) (by decide)⟩

/-- Claim C5: clicking a node whose url starts with "http" produces
exactly one navigation to that url; clicking a node whose url is absent,
"#", or not "http"-prefixed produces the warning outcome and no
navigation. -/
theorem c5_click_navigation (n : Node) (u : String) :
    (n.url = some u → jsStartsWith u "http" = true → clickNode n = .navigate u)
    ∧ (n.url = none → clickNode n = .warnInvalidUrl)
    ∧ (n.url = some "#" → clickNode n = .warnInvalidUrl)
    ∧ (n.url = some u → jsStartsWith u "http" = false →
        clickNode n = .warnInvalidUrl) := by
  refine ⟨?_, ?_, ?_, ?_⟩
  · intro hu hs
    have h1 : u ≠ "" := by
      rintro rfl
      rw [show jsStartsWith "" "http" = false from by decide] at hs
      exact Bool.false_ne_true hs
    have h2 : u ≠ "#" := by
      rintro rfl
      rw [show jsStartsWith "#" "http" = false from by decide] at hs
      exact Bool.false_ne_true hs
    simp [clickNode, hu, h1, h2, hs]
  · intro hu; simp [clickNode, hu]
  · intro hu; simp [clickNode, hu]
  · intro hu hs; simp [clickNode, hu, hs]

/-- Witness for `c5_click_navigation` at concrete nodes. -/
theorem c5_click_navigation_witness :
    clickNode ⟨"A", none, "Clinical & Patient Data", some "https://example.org"⟩
      = ClickOutcome.navigate "https://example.org"
    ∧ clickNode ⟨"B", none, "Omics & Molecular Data", none⟩
      = ClickOutcome.warnInvalidUrl
    ∧ clickNode ⟨"C", none, "Clinical & Patient Data", some "#"⟩
      = ClickOutcome.warnInvalidUrl
    ∧ clickNode ⟨"D", none, "Omics & Molecular Data", some "ftp://x"⟩
      = ClickOutcome.warnInvalidUrl :=
  ⟨(c5_click_navigation _ "https://example.org").1 rfl (by decide),
   (c5_click_navigation ⟨"B", none, "Omics & Molecular Data", none⟩ "").2.1 rfl,
   (c5_click_navigation _ "#").2.2.1 rfl,
   (c5_click_navigation _ "ftp://x").2.2.2 rfl (by decide)⟩

/-- Claim C7: `connectToMongoDB` memoizes its handle — with a handle
memoized every call returns it unchanged whatever the driver would do;
a successful first call memoizes; a failing first call propagates the
error and leaves the memo empty; a subsequent call after a failure
re-attempts from scratch and can succeed. -/
theorem c7_connect_memoization (E D : Type) (att : ConnOutcome E D)
    (db : D) (e : E) :
    connectToMongoDB att (some db) = (ConnOutcome.ok db, some db)
    ∧ connectToMongoDB (ConnOutcome.ok db : ConnOutcome E D) (none : Option D)
      = (ConnOutcome.ok db, some db)
    ∧ connectToMongoDB (ConnOutcome.err e : ConnOutcome E D) (none : Option D)
      = (ConnOutcome.err e, none)
    ∧ connectToMongoDB (ConnOutcome.ok db : ConnOutcome E D)
        ((connectToMongoDB (ConnOutcome.err e : ConnOutcome E D)
          (none : Option D)).2)
      = (ConnOutcome.ok db, some db) :=
  ⟨rfl, rfl, rfl, rfl⟩

/-- Claim C8: the displayed label is the text unchanged when its length
is at most the floor of 0.22 times the radius, and otherwise the first
floor(0.22 * r) characters followed by the ellipsis suffix. -/
theorem c8_label_abbreviation (text : String) (r : ℚ) (hr : 0 ≤ r) :
    ((text.length : ℤ) ≤ ⌊r * (22 / 100 : ℚ)⌋ →
        abbreviateText text r = text)
    ∧ ((text.length : ℤ) > ⌊r * (22 / 100 : ℚ)⌋ →
        abbreviateText text r
          = text.take (⌊r * (22 / 100 : ℚ)⌋).toNat ++ "...") := by
  have hfl : 0 ≤ ⌊r * (22 / 100 : ℚ)⌋ := Int.floor_nonneg.mpr (by positivity)
  constructor
  · intro hle
    unfold abbreviateText
    by_cases ht : text = ""
    · simp [ht]
    · rw [if_neg ht, if_neg (not_lt.mpr hle)]
  · intro hgt
    unfold abbreviateText
    have ht : text ≠ "" := by
      rintro rfl
      simp only [String.length_empty, Nat.cast_zero, gt_iff_lt] at hgt
      omega
    rw [if_neg ht, if_pos hgt]

/-- Witness for `c8_label_abbreviation`: at radius 20 the cutoff is
floor(4.4) = 4, so "Clinical" truncates to "Clin..." and "Cli" is kept
unchanged. -/
theorem c8_label_abbreviation_witness :
    abbreviateText "Clinical" 20 = "Clin..."
    ∧ abbreviateText "Cli" 20 = "Cli" := by
  have h4 : ⌊(20 : ℚ) * (22 / 100 : ℚ)⌋ = 4 := by norm_num
  constructor
  · have h := (c8_label_abbreviation "Clinical" 20 (by norm_num)).2
      (by rw [h4]; decide)
    rw [h, h4]
    decide
  · exact (c8_label_abbreviation "Cli" 20 (by norm_num)).1 (by rw [h4]; decide)

/-- Claim C3: after the mouseover handler runs on node `a` starting
from the freshly rendered (all-clear) highlight state, the link lines
carrying the highlighted class are exactly those incident to `a` and
the node circles carrying it are exactly the circle of `a` itself plus
the circles of nodes adjacent to `a` in either direction; after the
mouseout handler runs on any state, no element carries the class. -/
theorem c3_hover_highlighting (d : Dataset) (a : String) :
    (mouseoverStep (validLinks d) a (initHighlight d)).linkFlags
      = (validLinks d).map (fun l => (l, incident a l))
    ∧ (mouseoverStep (validLinks d) a (initHighlight d)).circleFlags
      = ((connectedNodes d).map Node.id).map
          (fun i => (i, i == a || adjacent (validLinks d) a i))
    ∧ ∀ st : HighlightState,
        (mouseoutStep st).linkFlags.all (fun p => p.2 == false) = true
        ∧ (mouseoutStep st).circleFlags.all (fun p => p.2 == false) = true := by
  refine ⟨?_, ?_, ?_⟩
  · simp [mouseoverStep, initHighlight, List.map_map, Function.comp]
  · simp [mouseoverStep, initHighlight, List.map_map, Function.comp]
  · intro st
    constructor <;> simp [mouseoutStep, List.all_map, Function.comp]

/-- The scaled size never drops below the minimum: the d3 clamp keeps
the output at or above the lower end of the range. -/
lemma nodeSizeScale_lower (m c : ℕ) : 20 ≤ nodeSizeScale m c := by
  simp only [nodeSizeScale, clampQ, minNodeSize, maxNodeSize]
  exact le_min (le_max_right _ _) (by norm_num)

/-- The scaled size never exceeds the maximum. -/
lemma nodeSizeScale_upper (m c : ℕ) : nodeSizeScale m c ≤ 40 := by
  simp only [nodeSizeScale, clampQ, minNodeSize, maxNodeSize]
  exact min_le_right _ _

/-- The scaled size is monotone in the incoming-link count. -/
lemma nodeSizeScale_mono (m : ℕ) {c c' : ℕ} (h : c ≤ c') :
    nodeSizeScale m c ≤ nodeSizeScale m c' := by
  simp only [nodeSizeScale, clampQ, minNodeSize, maxNodeSize]
  refine min_le_min (max_le_max ?_ le_rfl) le_rfl
  refine add_le_add_left ?_ _
  refine div_le_div_of_nonneg_right ?_ (Nat.cast_nonneg m)
  have : (c : ℚ) ≤ (c' : ℚ) := by exact_mod_cast h
  nlinarith

/-- A count of zero scales to the minimum size. -/
lemma nodeSizeScale_zero (m : ℕ) : nodeSizeScale m 0 = 20 := by
  simp only [nodeSizeScale, clampQ, minNodeSize, maxNodeSize]
  norm_num

/-- Claim C4: the rendered radius is monotone in the incoming-link
count, bounded into [20, 40], and exactly 20 at incoming-link count
zero. -/
theorem c4_radius_monotone_bounded (d : Dataset) (u v : String)
    (h : incomingCount (validLinks d) u ≤ incomingCount (validLinks d) v) :
    nodeRadius d u ≤ nodeRadius d v
    ∧ (20 ≤ nodeRadius d u ∧ nodeRadius d u ≤ 40)
    ∧ (incomingCount (validLinks d) u = 0 → nodeRadius d u = 20) := by
  refine ⟨nodeSizeScale_mono _ h, ⟨nodeSizeScale_lower _ _, nodeSizeScale_upper _ _⟩, ?_⟩
  intro h0
  rw [nodeRadius, h0]
  exact nodeSizeScale_zero _

/-- Witness for `c4_radius_monotone_bounded` on the worked example of
the spec: node A has 0 incoming links and node B has 1. -/
theorem c4_radius_monotone_bounded_witness :
    nodeRadius exampleDataset "A" ≤ nodeRadius exampleDataset "B"
    ∧ 20 ≤ nodeRadius exampleDataset "A"
    ∧ nodeRadius exampleDataset "A" ≤ 40
    ∧ nodeRadius exampleDataset "A" = 20 :=
  ⟨(c4_radius_monotone_bounded exampleDataset "A" "B" (by decide)).1,
   (c4_radius_monotone_bounded exampleDataset "A" "B" (by decide)).2.1.1,
   (c4_radius_monotone_bounded exampleDataset "A" "B" (by decide)).2.1.2,
   (c4_radius_monotone_bounded exampleDataset "A" "B" (by decide)).2.2 (by decide)⟩

/-- Claim C6: the layout runs the simulation for exactly 300 ticks and
then clamps, and every final position lies inside the 30-unit viewport
margins (for a viewport at least 60 units wide and tall, so that the
margin interval is nonempty). -/
theorem c6_layout_steps_and_clamp (w h : ℚ)
    (tick : List (ℚ × ℚ) → List (ℚ × ℚ)) (ps : List (ℚ × ℚ))
    (hw : 60 ≤ w) (hh : 60 ≤ h) :
    layoutPositions w h tick ps = (tick^[300] ps).map (clampNodePos w h)
    ∧ ∀ p ∈ layoutPositions w h tick ps,
        30 ≤ p.1 ∧ p.1 ≤ w - 30 ∧ 30 ≤ p.2 ∧ p.2 ≤ h - 30 := by
  refine ⟨rfl, ?_⟩
  intro p hp
  rw [layoutPositions] at hp
  rcases List.mem_map.mp hp with ⟨q, hq, rfl⟩
  simp only [clampNodePos, clampQ]
  refine ⟨?_, min_le_right _ _, ?_, min_le_right _ _⟩
  · exact le_min (le_max_right _ _) (by linarith)
  · exact le_min (le_max_right _ _) (by linarith)

/-- Witness for `c6_layout_steps_and_clamp`: an identity tick on one
node at (0, 200) in a 100 by 100 viewport clamps to (30, 70), inside
the margins. -/
theorem c6_layout_steps_and_clamp_witness :
    layoutPositions 100 100 id [((0 : ℚ), (200 : ℚ))] = [((30 : ℚ), (70 : ℚ))]
    ∧ (30 ≤ ((30 : ℚ), (70 : ℚ)).1 ∧ ((30 : ℚ), (70 : ℚ)).1 ≤ 100 - 30
       ∧ 30 ≤ ((30 : ℚ), (70 : ℚ)).2 ∧ ((30 : ℚ), (70 : ℚ)).2 ≤ 100 - 30) := by
  have hl : layoutPositions 100 100 id [((0 : ℚ), (200 : ℚ))]
      = [((30 : ℚ), (70 : ℚ))] := by
    rw [layoutPositions, runSim, Function.iterate_id]
    simp [clampNodePos, clampQ]
    norm_num
  refine ⟨hl, ?_⟩
  exact (c6_layout_steps_and_clamp 100 100 id [((0 : ℚ), (200 : ℚ))]
      (by norm_num) (by norm_num)).2 ((30 : ℚ), (70 : ℚ)) (by rw [hl]; simp)

lemma le_foldr_max {xs : List ℕ} {x : ℕ} (hx : x ∈ xs) :
    x ≤ xs.foldr Nat.max 0 := by
  induction xs with
  | nil => cases hx
  | cons y ys ih =>
      rcases List.mem_cons.mp hx with rfl | hx'
      · exact Nat.le_max_left _ _
      · exact le_trans (ih hx') (Nat.le_max_right _ _)

lemma foldr_max_le {xs : List ℕ} {K : ℕ} (hle : ∀ x ∈ xs, x ≤ K) :
    xs.foldr Nat.max 0 ≤ K := by
  induction xs with
  | nil => exact Nat.zero_le K
  | cons y ys ih =>
      simp only [List.foldr_cons]
      exact Nat.max_le.mpr
        ⟨hle y (List.mem_cons_self _ _),
         ih fun x hx => hle x (List.mem_cons_of_mem _ hx)⟩

/-- A positive incoming count exhibits a link targeting the id. -/
lemma exists_target_of_pos {links : List Link} {id : String}
    (h : 0 < incomingCount links id) : ∃ l ∈ links, l.target = id := by
  unfold incomingCount at h
  rcases List.exists_mem_of_ne_nil _ (List.length_pos.mp h) with ⟨l, hl⟩
  rcases List.mem_filter.mp hl with ⟨hmem, hbeq⟩
  exact ⟨l, hmem, eq_of_beq hbeq⟩

/-- Claim C10: sizing is relative to the dataset.  In a renderable
dataset (every link endpoint names an existing node — a dataset with a
dangling endpoint makes the d3 link force throw before drawing) in which
some node has a positive incoming-link count, every node whose
incoming-link count is the dataset maximum gets radius exactly 40. -/
theorem c10_max_incoming_radius (d : Dataset) (v : Node)
    (hwf : ∀ l ∈ d.links, ∃ n ∈ d.nodes, n.id = l.target)
    (hpos : ∃ n ∈ d.nodes, 0 < incomingCount (validLinks d) n.id)
    (hv : v ∈ d.nodes)
    (hmax : ∀ n ∈ d.nodes,
      incomingCount (validLinks d) n.id ≤ incomingCount (validLinks d) v.id) :
    nodeRadius d v.id = 40 := by
  obtain ⟨n0, hn0, hp0⟩ := hpos
  have hK1 : 1 ≤ incomingCount (validLinks d) v.id :=
    le_trans hp0 (hmax n0 hn0)
  have hkeyle : ∀ x ∈ (countKeys d).map (incomingCount (validLinks d)),
      x ≤ incomingCount (validLinks d) v.id := by
    intro x hx
    rcases List.mem_map.mp hx with ⟨k, hk, rfl⟩
    rcases List.mem_append.mp hk with hk | hk
    · rcases List.mem_map.mp hk with ⟨n, hn, rfl⟩
      exact hmax n (List.mem_of_mem_filter hn)
    · rcases List.mem_map.mp hk with ⟨l, hl, rfl⟩
      rw [validLinks_eq_links] at hl
      obtain ⟨n, hn, hid⟩ := hwf l hl
      rw [← hid]
      exact hmax n hn
  obtain ⟨lv, hlv, hlt⟩ := exists_target_of_pos (lt_of_lt_of_le Nat.zero_lt_one hK1)
  have hvmem : v.id ∈ countKeys d :=
    List.mem_append.mpr (Or.inr (List.mem_map.mpr ⟨lv, hlv, hlt⟩))
  have hfold : ((countKeys d).map (incomingCount (validLinks d))).foldr Nat.max 0
      = incomingCount (validLinks d) v.id :=
    le_antisymm (foldr_max_le hkeyle)
      (le_foldr_max (List.mem_map.mpr ⟨v.id, hvmem, rfl⟩))
  have hM : maxIncomingLinks d = incomingCount (validLinks d) v.id := by
    rw [maxIncomingLinks, hfold]
    exact Nat.max_eq_right hK1
  rw [nodeRadius, hM]
  have hKQ : ((incomingCount (validLinks d) v.id : ℚ)) ≠ 0 := by
    have : (0 : ℚ) < incomingCount (validLinks d) v.id := by
      exact_mod_cast lt_of_lt_of_le Nat.zero_lt_one hK1
    exact ne_of_gt this
  simp only [nodeSizeScale, clampQ, minNodeSize, maxNodeSize]
  rw [mul_div_assoc, div_self hKQ, mul_one]
  norm_num

/-- Witness for `c10_max_incoming_radius` on the worked example of the
spec: node B holds the maximum incoming-link count (1) and renders at
radius 40. -/
theorem c10_max_incoming_radius_witness :
    nodeRadius exampleDataset "B" = 40 :=
  c10_max_incoming_radius exampleDataset nodeB (by decide)
    ⟨nodeB, by decide, by decide⟩ (by decide) (by decide)

end BLOD
